import Mathlib

/-!
Verification of the EPUB question–answer extractors.

Shallow embedding of `extract_qa.py` (the generic "heading/title" extractor)
and `extract_qa_chinese.py` (the book-specific `bodycontent-second-title`
extractor).  The DOM produced by BeautifulSoup is modelled as a tree of
nodes; the external lxml parse is modelled by an `Except`-valued parse
result (`.error` when the parse raises inside the `try` block).
-/

/-- The whitespace characters matched by Python's regular-expression class
`\s` on `str` input — the class used by `re.sub(r'\s+', ' ', text)` in
`clean_text`. -/
def isPySpace (c : Char) : Bool :=
  c == ' ' || c == '\t' || c == '\n' || c == '\r' || c == '\x0b' || c == '\x0c' ||
  c == '\x1c' || c == '\x1d' || c == '\x1e' || c == '\x1f' || c == '\u0085' ||
  c == ' ' || c == ' ' || (' ' ≤ c && c ≤ ' ') ||
  c == ' ' || c == ' ' || c == ' ' || c == ' ' || c == '　'

/-- `re.sub(r'\s+', ' ', text)` on the character list: every maximal run of
whitespace characters becomes a single space.  The boolean flag records
whether the previous character was whitespace (i.e. whether we are inside a
run that has already emitted its space). -/
def collapseWsAux : Bool → List Char → List Char
  | _, [] => []
  | prevWs, c :: cs =>
    if isPySpace c then
      if prevWs then collapseWsAux true cs
      else ' ' :: collapseWsAux true cs
    else c :: collapseWsAux false cs

/-- `str.strip()` on the character list: remove leading and trailing
whitespace. -/
def pyStrip (l : List Char) : List Char :=
  ((l.dropWhile isPySpace).reverse.dropWhile isPySpace).reverse

/-- `clean_text` (identical in both source files): replace every run of
whitespace by a single space, then strip leading/trailing whitespace
(`re.sub(r'\s+', ' ', text)` followed by `.strip()`). -/
def clean_text (s : String) : String :=
  String.mk (pyStrip (collapseWsAux false s.data))

/-- A character list is in collapsed form relative to flag `b`: every
whitespace character in it is a literal space, no two whitespace characters
are adjacent, and when `b` is true the list does not start with whitespace. -/
def wsCollapsed : Bool → List Char → Bool
  | _, [] => true
  | b, c :: cs =>
    if isPySpace c then !b && (c == ' ') && wsCollapsed true cs
    else wsCollapsed false cs

theorem wsCollapsed_collapseWsAux : ∀ (l : List Char) (b : Bool),
    wsCollapsed b (collapseWsAux b l) = true := by
  intro l
  induction l with
  | nil => intro b; rfl
  | cons c cs ih =>
    intro b
    by_cases hc : isPySpace c = true
    · cases b with
      | true => simp [collapseWsAux, hc, ih true]
      | false =>
        simp only [collapseWsAux, hc, if_true, Bool.false_eq_true, if_false]
        simp [wsCollapsed, isPySpace, ih true]
    · simp [collapseWsAux, hc, wsCollapsed, ih false]

theorem wsCollapsed_true_false {l : List Char}
    (h : wsCollapsed true l = true) : wsCollapsed false l = true := by
  cases l with
  | nil => rfl
  | cons c cs =>
    by_cases hc : isPySpace c = true
    · simp [wsCollapsed, hc] at h
    · simpa [wsCollapsed, hc] using h

theorem collapseWsAux_of_wsCollapsed : ∀ (l : List Char) (b : Bool),
    wsCollapsed b l = true → collapseWsAux b l = l := by
  intro l
  induction l with
  | nil => intro b _; rfl
  | cons c cs ih =>
    intro b h
    by_cases hc : isPySpace c = true
    · simp only [wsCollapsed, hc, if_true, Bool.and_eq_true, Bool.not_eq_true',
        beq_iff_eq] at h
      obtain ⟨⟨hb, hsp⟩, hrest⟩ := h
      subst hb; subst hsp
      simp [collapseWsAux, hc, ih true hrest]
    · simp only [wsCollapsed, hc, if_false, Bool.false_eq_true] at h
      simp [collapseWsAux, hc, ih false h]

theorem wsCollapsed_dropWhile {l : List Char} (h : wsCollapsed false l = true) :
    wsCollapsed false (l.dropWhile isPySpace) = true := by
  cases l with
  | nil => rfl
  | cons c cs =>
    by_cases hc : isPySpace c = true
    · simp only [wsCollapsed, hc, if_true, Bool.and_eq_true] at h
      obtain ⟨_, hrest⟩ := h
      rw [List.dropWhile_cons_of_pos hc]
      cases cs with
      | nil => rfl
      | cons d ds =>
        by_cases hd : isPySpace d = true
        · simp [wsCollapsed, hd] at hrest
        · rw [List.dropWhile_cons_of_neg (by simp [hd])]
          exact wsCollapsed_true_false hrest
    · rw [List.dropWhile_cons_of_neg (by simp [hc])]
      exact h

theorem wsCollapsed_append_left : ∀ (l₁ l₂ : List Char) (b : Bool),
    wsCollapsed b (l₁ ++ l₂) = true → wsCollapsed b l₁ = true := by
  intro l₁
  induction l₁ with
  | nil => intro l₂ b _; rfl
  | cons c cs ih =>
    intro l₂ b h
    by_cases hc : isPySpace c = true
    · simp only [List.cons_append, wsCollapsed, hc, if_true, Bool.and_eq_true] at h ⊢
      exact ⟨h.1, ih l₂ true h.2⟩
    · simp only [List.cons_append, wsCollapsed, hc, if_false, Bool.false_eq_true] at h ⊢
      exact ih l₂ false h

theorem dropWhile_head_not (p : Char → Bool) :
    ∀ (l : List Char) (c : Char) (cs : List Char),
      l.dropWhile p = c :: cs → p c = false := by
  intro l
  induction l with
  | nil => intro c cs h; simp [List.dropWhile] at h
  | cons d ds ih =>
    intro c cs h
    by_cases hd : p d = true
    · rw [List.dropWhile_cons_of_pos hd] at h
      exact ih c cs h
    · rw [List.dropWhile_cons_of_neg (by simp [hd])] at h
      cases h
      simpa using hd

theorem dropWhile_eq_self_of_head (p : Char → Bool) :
    ∀ (l : List Char), (∀ c cs, l = c :: cs → p c = false) →
      l.dropWhile p = l := by
  intro l h
  cases l with
  | nil => rfl
  | cons c cs =>
    rw [List.dropWhile_cons_of_neg (by simp [h c cs rfl])]

/-- The list trimmed from the front is the whole list minus its
whitespace-prefix. -/
theorem dropWhile_decomp (p : Char → Bool) (l : List Char) :
    l = l.takeWhile p ++ l.dropWhile p :=
  (List.takeWhile_append_dropWhile (p := p) (l := l)).symm

/-- `pyStrip` output starts with a non-whitespace character. -/
theorem pyStrip_head_not (l : List Char) :
    ∀ c cs, pyStrip l = c :: cs → isPySpace c = false := by
  intro c cs h
  have hm : l.dropWhile isPySpace
      = ((l.dropWhile isPySpace).reverse.takeWhile isPySpace
          ++ (l.dropWhile isPySpace).reverse.dropWhile isPySpace).reverse := by
    rw [← dropWhile_decomp, List.reverse_reverse]
  rw [List.reverse_append] at hm
  unfold pyStrip at h
  rw [h] at hm
  exact dropWhile_head_not isPySpace l c _ hm

/-- `pyStrip` output ends with a non-whitespace character. -/
theorem pyStrip_last_not (l : List Char) :
    ∀ c cs, (pyStrip l).reverse = c :: cs → isPySpace c = false := by
  intro c cs h
  unfold pyStrip at h
  rw [List.reverse_reverse] at h
  exact dropWhile_head_not isPySpace _ c _ h

theorem pyStrip_idem (l : List Char) : pyStrip (pyStrip l) = pyStrip l := by
  have h1 : (pyStrip l).dropWhile isPySpace = pyStrip l :=
    dropWhile_eq_self_of_head _ _ (fun c cs h => pyStrip_head_not l c cs h)
  have h2 : (pyStrip l).reverse.dropWhile isPySpace = (pyStrip l).reverse :=
    dropWhile_eq_self_of_head _ _ (fun c cs h => pyStrip_last_not l c cs h)
  show ((((pyStrip l).dropWhile isPySpace).reverse).dropWhile isPySpace).reverse
      = pyStrip l
  rw [h1, h2, List.reverse_reverse]

theorem wsCollapsed_pyStrip {l : List Char} (h : wsCollapsed false l = true) :
    wsCollapsed false (pyStrip l) = true := by
  have hm : wsCollapsed false (l.dropWhile isPySpace) = true :=
    wsCollapsed_dropWhile h
  have hdec : l.dropWhile isPySpace
      = pyStrip l ++ ((l.dropWhile isPySpace).reverse.takeWhile isPySpace).reverse := by
    conv_lhs => rw [← List.reverse_reverse (l.dropWhile isPySpace),
      dropWhile_decomp isPySpace (l.dropWhile isPySpace).reverse]
    rw [List.reverse_append]
    rfl
  rw [hdec] at hm
  exact wsCollapsed_append_left _ _ _ hm

/-- The identity `clean_text (clean_text s) = clean_text s` at the level of
character lists. -/
theorem clean_list_idem (l : List Char) :
    pyStrip (collapseWsAux false (pyStrip (collapseWsAux false l)))
      = pyStrip (collapseWsAux false l) := by
  have h1 : wsCollapsed false (collapseWsAux false l) = true :=
    wsCollapsed_collapseWsAux l false
  have h2 : wsCollapsed false (pyStrip (collapseWsAux false l)) = true :=
    wsCollapsed_pyStrip h1
  rw [collapseWsAux_of_wsCollapsed _ _ h2, pyStrip_idem]

/--
**C8.** `clean_text` collapses every whitespace run to a single space and
trims the ends: on `" a \n\n b "` it yields `"a b"`, and it is idempotent —
`clean_text (clean_text x) = clean_text x` for every string `x`.
-/
theorem clean_text_spec :
    clean_text " a \n\n b " = "a b" ∧
      ∀ x : String, clean_text (clean_text x) = clean_text x := by
  constructor
  · rfl
  · intro x
    show String.mk (pyStrip (collapseWsAux false
        (String.mk (pyStrip (collapseWsAux false x.data))).data)) = _
    rw [show (String.mk (pyStrip (collapseWsAux false x.data))).data
        = pyStrip (collapseWsAux false x.data) from rfl]
    rw [clean_list_idem]
    rfl

/-- Python's substring test `needle in hay` on character lists. -/
def containsSub (needle : List Char) : List Char → Bool
  | [] => needle.isEmpty
  | c :: cs => needle.isPrefixOf (c :: cs) || containsSub needle cs

/-- Python's substring test `needle in hay` on strings. -/
def hasSubstr (hay needle : String) : Bool :=
  containsSub needle.data hay.data

/-- Python's `str.lower()`, modelled on the character list (it agrees with
CPython on ASCII, which covers every comparison the source makes). -/
def pyLower (s : String) : String :=
  String.mk (s.data.map Char.toLower)

/-- Python's `str.endswith(suffix)`: suffix test on the character
sequence. -/
def pyEndsWith (s suffix : String) : Bool :=
  suffix.data.isSuffixOf s.data

/-- `ebooklib.ITEM_DOCUMENT` (the media-type constant for content
documents). -/
def ITEM_DOCUMENT : Nat := 9

/-- A node of the DOM tree produced by BeautifulSoup: either a text node
(`NavigableString`) or an element with its tag name, the (possibly empty)
list of CSS class tokens of its `class` attribute, and its children. -/
inductive Node where
  | text (s : String)
  | elem (tag : String) (classes : List String) (children : List Node)

mutual

/-- `Tag.get_text()` / the string of a `NavigableString`: concatenation of
all descendant text. -/
def Node.getText : Node → String
  | .text s => s
  | .elem _ _ children => getTextList children

/-- Concatenated descendant text of a list of nodes. -/
def getTextList : List Node → String
  | [] => ""
  | n :: ns => n.getText ++ getTextList ns

end

/-- `soup.find_all(tags, class_=pred)` in document order, with each match
paired with the list of its following siblings (the chain the extractor
walks via `next_sibling`). -/
def findAll (p : Node → Bool) : List Node → List (Node × List Node)
  | [] => []
  | n :: rest =>
    (if p n then [(n, rest)] else []) ++
      (match n with
        | .text _ => []
        | .elem _ _ children => findAll p children) ++
      findAll p rest

/-- The class predicate of the generic extractor's `find_all` call:
`lambda x: x and ('heading' in x.lower() or 'title' in x.lower())`,
applied by BeautifulSoup to each CSS class token. -/
def headingClassGeneric (x : String) : Bool :=
  hasSubstr (pyLower x) "heading" || hasSubstr (pyLower x) "title"

/-- A node matched by the generic extractor's `find_all(['h4','h3','h2'],
class_=...)` call (`extract_qa.py`, line 46). -/
def isQuestionNodeGeneric : Node → Bool
  | .text _ => false
  | .elem tag classes _ =>
    (tag == "h4" || tag == "h3" || tag == "h2") && classes.any headingClassGeneric

/-- The generic sibling walk's terminator test (`extract_qa.py`,
lines 64–66). -/
def isBreakNodeGeneric : Node → Bool
  | .text _ => false
  | .elem tag classes _ =>
    (tag == "h4" || tag == "h3" || tag == "h2") &&
      classes.any fun c => hasSubstr (pyLower c) "heading" || hasSubstr (pyLower c) "title"

/-- `current.name == 'p'` — any paragraph is collected by the generic
walk. -/
def isParaGeneric : Node → Bool
  | .text _ => false
  | .elem tag _ _ => tag == "p"

/-- The class predicate of the book-specific extractor's `find_all` call:
`'bodycontent-second-title' in x or 'bodycontent-second-title1' in x`
(`extract_qa_chinese.py`, lines 45–46). -/
def titleClassChinese (x : String) : Bool :=
  hasSubstr x "bodycontent-second-title" || hasSubstr x "bodycontent-second-title1"

/-- A node matched by the book-specific extractor's `find_all(['h3','h2'],
class_=...)` call. -/
def isQuestionNodeChinese : Node → Bool
  | .text _ => false
  | .elem tag classes _ =>
    (tag == "h3" || tag == "h2") && classes.any titleClassChinese

/-- The book-specific sibling walk's terminator test
(`extract_qa_chinese.py`, lines 64–66). -/
def isBreakNodeChinese : Node → Bool
  | .text _ => false
  | .elem tag classes _ =>
    (tag == "h3" || tag == "h2") &&
      classes.any fun c => hasSubstr c "bodycontent-second-title"

/-- `current.name == 'p' and 'bodycontent-text' in current.get('class', [])`
— the book-specific walk collects only paragraphs carrying the
`bodycontent-text` class token. -/
def isParaChinese : Node → Bool
  | .text _ => false
  | .elem tag classes _ => tag == "p" && classes.contains "bodycontent-text"

/-- The sibling walk shared by both extractors (the `while current:` loop):
collect the cleaned, non-empty text of each eligible paragraph, stopping at
the first node matching the terminator test. -/
def collectAnswer (breakP paraP : Node → Bool) : List Node → List String
  | [] => []
  | current :: rest =>
    if breakP current then []
    else if paraP current then
      let t := clean_text current.getText
      if t ≠ "" then t :: collectAnswer breakP paraP rest
      else collectAnswer breakP paraP rest
    else collectAnswer breakP paraP rest

/-- `'\n'.join(strs)`. -/
def joinNL : List String → String
  | [] => ""
  | [s] => s
  | s :: rest => s ++ "\n" ++ joinNL rest

/-- An extracted question–answer pair. -/
structure QAPair where
  question : String
  answer : String
deriving DecidableEq, Repr

/-- `extract_qa_from_html` of `extract_qa.py`.  The BeautifulSoup/lxml parse
is external; the argument is its result, `.error` when the parse raises
inside the `try` block — the handler logs and the function returns the pairs
collected so far, i.e. none. -/
def extract_qa_from_html (parsed : Except String (List Node)) : List QAPair :=
  match parsed with
  | .error _ => []
  | .ok soup =>
    (findAll isQuestionNodeGeneric soup).flatMap fun qs =>
      let question_text := clean_text qs.1.getText
      if question_text = "" ∨ question_text.length < 2 ∨
          ¬ pyEndsWith question_text "？" = true then []
      else
        let answer := joinNL (collectAnswer isBreakNodeGeneric isParaGeneric qs.2)
        if question_text ≠ "" ∧ answer ≠ "" then
          [{ question := question_text, answer := answer }]
        else []

/-- `extract_qa_from_html` of `extract_qa_chinese.py` (the book-specific
variant): same structure, but its admissibility filter is length-only and
its walk keeps only `bodycontent-text` paragraphs. -/
def extract_qa_from_html_chinese (parsed : Except String (List Node)) : List QAPair :=
  match parsed with
  | .error _ => []
  | .ok soup =>
    (findAll isQuestionNodeChinese soup).flatMap fun qs =>
      let question_text := clean_text qs.1.getText
      if question_text = "" ∨ question_text.length < 2 then []
      else
        let answer := joinNL (collectAnswer isBreakNodeChinese isParaChinese qs.2)
        if question_text ≠ "" ∧ answer ≠ "" then
          [{ question := question_text, answer := answer }]
        else []

/-- The content of one package entry as consumed by the epub loop:
`item.get_content().decode('utf-8')` may raise `UnicodeDecodeError`
(undecodable); otherwise the decoded HTML is handed to the extractor, which
is modelled by its parse result. -/
inductive ItemContent where
  | undecodable (msg : String)
  | decoded (parsed : Except String (List Node))

/-- An `ebooklib` package entry: its name, its `get_type()` constant, and
its content. -/
structure EpubItem where
  name : String
  itemType : Nat
  content : ItemContent

/-- `is_content_item` (identical in both source files): keep only entries of
type `ITEM_DOCUMENT` whose lowercased name avoids the exclusion
substrings. -/
def is_content_item (item : EpubItem) : Bool :=
  if item.itemType == ITEM_DOCUMENT then
    if ["nav", "toc", "content.opf", "cover"].any
        (fun x => hasSubstr (pyLower item.name) x) then false
    else true
  else false

/-- The pairs one entry contributes inside the `try` of the epub loop of
`extract_qa.py`: nothing when its bytes do not decode (the handler logs and
continues), otherwise whatever the HTML extractor returns. -/
def itemPairs (item : EpubItem) : List QAPair :=
  match item.content with
  | .undecodable _ => []
  | .decoded parsed => extract_qa_from_html parsed

/-- `extract_qa_from_epub` of `extract_qa.py`: iterate the package entries
in enumeration order, keep content items, and accumulate each one's pairs
(`all_qa_pairs.extend(qa_pairs)`).  The loop in `extract_qa_chinese.py`
differs only in progress logging. -/
def extract_qa_from_epub (items : List EpubItem) : List QAPair :=
  items.flatMap fun item =>
    if is_content_item item then itemPairs item else []

/-! ## Concrete demonstration data used by the witnesses -/

/-- A small generic-signature document: one admissible heading, one
paragraph. -/
def demoDocA : List Node :=
  [Node.elem "h2" ["heading"] [Node.text "为什么天空是蓝色的？"],
   Node.elem "p" [] [Node.text "因为散射"]]

/-- A second generic-signature document. -/
def demoDocB : List Node :=
  [Node.elem "h2" ["heading"] [Node.text "什么是光？"],
   Node.elem "p" [] [Node.text "电磁波"]]

/-- A third generic-signature document. -/
def demoDocC : List Node :=
  [Node.elem "h2" ["heading"] [Node.text "什么是声音？"],
   Node.elem "p" [] [Node.text "振动"]]

/-- A book-specific-signature document whose heading does not end with
`？`. -/
def demoDocCn : List Node :=
  [Node.elem "h3" ["bodycontent-second-title"] [Node.text "天空为蓝"],
   Node.elem "p" ["bodycontent-text"] [Node.text "散射"]]

/-- Package entry A: a content document that parses to `demoDocA`. -/
def demoItemA : EpubItem :=
  { name := "a.xhtml", itemType := 9,
    content := ItemContent.decoded (Except.ok demoDocA) }

/-- Package entry B: a content document that parses to `demoDocB`. -/
def demoItemB : EpubItem :=
  { name := "b.xhtml", itemType := 9,
    content := ItemContent.decoded (Except.ok demoDocB) }

/-- Package entry C: a content document that parses to `demoDocC`. -/
def demoItemC : EpubItem :=
  { name := "c.xhtml", itemType := 9,
    content := ItemContent.decoded (Except.ok demoDocC) }

/-- A content entry whose bytes are not valid UTF-8. -/
def demoItemBad : EpubItem :=
  { name := "bad.xhtml", itemType := 9,
    content := ItemContent.undecodable "invalid utf-8" }

/-- A content entry whose HTML fails to parse. -/
def demoItemErr : EpubItem :=
  { name := "err.xhtml", itemType := 9,
    content := ItemContent.decoded (Except.error "lxml parse error") }


/-! ## Shared helper lemmas -/

theorem str_append_empty (s : String) : s ++ "" = s := by
  cases s with
  | mk l => show String.mk (l ++ []) = String.mk l; rw [List.append_nil]

theorem getText_elem_text (tag : String) (classes : List String) (s : String) :
    (Node.elem tag classes [Node.text s]).getText = s := by
  show Node.getText _ = s
  rw [Node.getText, getTextList, Node.getText, getTextList, str_append_empty]

/-- The generic walk's terminator test coincides with the generic
`find_all` signature test. -/
theorem isBreakNodeGeneric_eq (n : Node) :
    isBreakNodeGeneric n = isQuestionNodeGeneric n := by
  cases n with
  | text s => rfl
  | elem tag classes children => rfl

theorem isQuestionNodeGeneric_text (s : String) :
    isQuestionNodeGeneric (Node.text s) = false := rfl

theorem isQuestionNodeGeneric_p (d : List String) (ns : List Node) :
    isQuestionNodeGeneric (Node.elem "p" d ns) = false := by
  simp [isQuestionNodeGeneric]

theorem isBreakNodeGeneric_p (d : List String) (ns : List Node) :
    isBreakNodeGeneric (Node.elem "p" d ns) = false := by
  simp [isBreakNodeGeneric]

theorem isParaGeneric_p (d : List String) (ns : List Node) :
    isParaGeneric (Node.elem "p" d ns) = true := by
  simp [isParaGeneric]

theorem isQuestionNodeChinese_text (s : String) :
    isQuestionNodeChinese (Node.text s) = false := rfl

theorem isQuestionNodeChinese_p (d : List String) (ns : List Node) :
    isQuestionNodeChinese (Node.elem "p" d ns) = false := by
  simp [isQuestionNodeChinese]

theorem isBreakNodeChinese_p (d : List String) (ns : List Node) :
    isBreakNodeChinese (Node.elem "p" d ns) = false := by
  simp [isBreakNodeChinese]

theorem str_concat_nl_ne (x y : String) : x ++ "\n" ++ y ≠ "" := by
  intro h
  have hlen := congrArg String.length h
  simp [String.length_append] at hlen
  exact absurd hlen.1.2 (by decide)

/-- Every pair `extract_qa.py`'s HTML extractor emits has survived both its
admissibility filter and its final emission test. -/
theorem extract_generic_emits {parsed : Except String (List Node)} {p : QAPair}
    (h : p ∈ extract_qa_from_html parsed) :
    p.question ≠ "" ∧ p.answer ≠ "" ∧ 2 ≤ p.question.length ∧
      pyEndsWith p.question "？" = true := by
  match parsed with
  | .error e => simp [extract_qa_from_html] at h
  | .ok soup =>
    simp only [extract_qa_from_html] at h
    rw [List.mem_flatMap] at h
    obtain ⟨qs, _, hp⟩ := h
    split at hp
    · simp at hp
    · rename_i hcond
      push_neg at hcond
      obtain ⟨hne, hlen, hend⟩ := hcond
      split at hp
      · rename_i hemit
        simp only [List.mem_singleton] at hp
        subst hp
        exact ⟨hne, hemit.2, hlen, hend⟩
      · simp at hp

/-- Every pair `extract_qa_chinese.py`'s HTML extractor emits has survived
its (length-only) admissibility filter and its final emission test. -/
theorem extract_chinese_emits {parsed : Except String (List Node)} {p : QAPair}
    (h : p ∈ extract_qa_from_html_chinese parsed) :
    p.question ≠ "" ∧ p.answer ≠ "" ∧ 2 ≤ p.question.length := by
  match parsed with
  | .error e => simp [extract_qa_from_html_chinese] at h
  | .ok soup =>
    simp only [extract_qa_from_html_chinese] at h
    rw [List.mem_flatMap] at h
    obtain ⟨qs, _, hp⟩ := h
    split at hp
    · simp at hp
    · rename_i hcond
      push_neg at hcond
      obtain ⟨hne, hlen⟩ := hcond
      split at hp
      · rename_i hemit
        simp only [List.mem_singleton] at hp
        subst hp
        exact ⟨hne, hemit.2, hlen⟩
      · simp at hp

/-! ## Claim C1 -/

/--
**C1 counterexample.** The claim as stated is false: the book-specific
(strict-signature) extractor of `extract_qa_chinese.py` applies only the
length filter and emits a pair whose question does not end with `？`, while
the generic extractor of `extract_qa.py` is the variant that rejects a
heading lacking the `？` suffix (here the same admissible-length question
with no `？` yields nothing).
-/
theorem c1_counterexample :
    extract_qa_from_html_chinese (Except.ok
        [Node.elem "h3" ["bodycontent-second-title"] [Node.text "天空为蓝"],
         Node.elem "p" ["bodycontent-text"] [Node.text "散射"]])
      = [{ question := "天空为蓝", answer := "散射" }] ∧
    pyEndsWith "天空为蓝" "？" = false ∧
    extract_qa_from_html (Except.ok
        [Node.elem "h2" ["heading"] [Node.text "天空为蓝"],
         Node.elem "p" [] [Node.text "散射"]]) = [] := by
  refine ⟨?_, by decide, ?_⟩
  · simp +decide [extract_qa_from_html_chinese, findAll, isQuestionNodeChinese,
      isBreakNodeChinese, isParaChinese, titleClassChinese, collectAnswer,
      joinNL, Node.getText, getTextList]
  · simp +decide [extract_qa_from_html, findAll, isQuestionNodeGeneric,
      headingClassGeneric, Node.getText, getTextList]

/--
**C1 (amended).** In the generic (heading/title-signature) extractor of
`extract_qa.py`, every emitted QAPair's question ends with the full-width
question mark `？`: its admissibility filter rejects any candidate heading
whose cleaned text does not end with `？`, while the book-specific
extractor of `extract_qa_chinese.py` applies only the length-based filter.
-/
theorem c1_generic_question_endswith (parsed : Except String (List Node))
    (p : QAPair) (h : p ∈ extract_qa_from_html parsed) :
    pyEndsWith p.question "？" = true :=
  (extract_generic_emits h).2.2.2

/-- Witness for C1: the amended theorem applied to a concrete document. -/
theorem c1_generic_question_endswith_witness :
    ({ question := "为什么天空是蓝色的？", answer := "因为散射" } : QAPair) ∈
        extract_qa_from_html (Except.ok
          [Node.elem "h2" ["heading"] [Node.text "为什么天空是蓝色的？"],
           Node.elem "p" [] [Node.text "因为散射"]]) ∧
      pyEndsWith "为什么天空是蓝色的？" "？" = true := by
  have heq : extract_qa_from_html (Except.ok
      [Node.elem "h2" ["heading"] [Node.text "为什么天空是蓝色的？"],
       Node.elem "p" [] [Node.text "因为散射"]])
      = [{ question := "为什么天空是蓝色的？", answer := "因为散射" }] := by
    simp +decide [extract_qa_from_html, findAll, isQuestionNodeGeneric,
      headingClassGeneric, isBreakNodeGeneric, isParaGeneric, collectAnswer,
      joinNL, Node.getText, getTextList]
  have hm : ({ question := "为什么天空是蓝色的？", answer := "因为散射" } : QAPair) ∈
      extract_qa_from_html (Except.ok
        [Node.elem "h2" ["heading"] [Node.text "为什么天空是蓝色的？"],
         Node.elem "p" [] [Node.text "因为散射"]]) := by
    rw [heq]
    exact List.mem_singleton.2 rfl
  exact ⟨hm, c1_generic_question_endswith _ _ hm⟩

/-! ## Claim C2 -/

/--
**C2.** When the parse (or any step of the `try` block) raises for one
document, the error is caught and the document yields zero pairs, in both
extractors; and inside the epub loop such a document never aborts the
processing of the other entries — the overall output is exactly the
concatenation of the other entries' contributions.
-/
theorem c2_parse_error_isolated (e : String) (items₁ items₂ : List EpubItem)
    (it : EpubItem) (h : it.content = ItemContent.decoded (Except.error e)) :
    extract_qa_from_html (Except.error e) = [] ∧
      extract_qa_from_html_chinese (Except.error e) = [] ∧
      extract_qa_from_epub (items₁ ++ it :: items₂)
        = extract_qa_from_epub items₁ ++ extract_qa_from_epub items₂ := by
  refine ⟨rfl, rfl, ?_⟩
  have hit : itemPairs it = [] := by
    unfold itemPairs
    rw [h]
    rfl
  simp only [extract_qa_from_epub, List.flatMap_append, List.flatMap_cons, hit]
  simp

/-- Witness for C2: a concrete failing middle entry between two good ones. -/
theorem c2_parse_error_isolated_witness :
    demoItemErr.content = ItemContent.decoded (Except.error "lxml parse error") ∧
      extract_qa_from_epub ([demoItemA] ++ demoItemErr :: [demoItemC])
        = extract_qa_from_epub [demoItemA] ++ extract_qa_from_epub [demoItemC] :=
  ⟨rfl, (c2_parse_error_isolated "lxml parse error" [demoItemA] [demoItemC]
      demoItemErr rfl).2.2⟩


/-! ## Claim C4 -/

/--
**C4.** Every QAPair emitted by either extractor has a non-empty cleaned
question, a non-empty answer, and a question of length at least 2.
-/
theorem c4_emitted_pairs_nonempty (parsed : Except String (List Node))
    (p : QAPair)
    (h : p ∈ extract_qa_from_html parsed ∨
      p ∈ extract_qa_from_html_chinese parsed) :
    p.question ≠ "" ∧ p.answer ≠ "" ∧ 2 ≤ p.question.length := by
  cases h with
  | inl hg =>
    obtain ⟨h1, h2, h3, _⟩ := extract_generic_emits hg
    exact ⟨h1, h2, h3⟩
  | inr hc => exact extract_chinese_emits hc

/-- Witness for C4: the theorem applied to a pair emitted by the
book-specific extractor on a concrete document. -/
theorem c4_emitted_pairs_nonempty_witness :
    (({ question := "天空为蓝", answer := "散射" } : QAPair) ∈
        extract_qa_from_html (Except.ok demoDocCn) ∨
      ({ question := "天空为蓝", answer := "散射" } : QAPair) ∈
        extract_qa_from_html_chinese (Except.ok demoDocCn)) ∧
      ("天空为蓝" : String) ≠ "" ∧ ("散射" : String) ≠ "" ∧
        2 ≤ ("天空为蓝" : String).length := by
  have heq : extract_qa_from_html_chinese (Except.ok demoDocCn)
      = [{ question := "天空为蓝", answer := "散射" }] := by
    simp +decide [demoDocCn, extract_qa_from_html_chinese, findAll,
      isQuestionNodeChinese, isBreakNodeChinese, isParaChinese,
      titleClassChinese, collectAnswer, joinNL, Node.getText, getTextList]
  have hm : ({ question := "天空为蓝", answer := "散射" } : QAPair) ∈
      extract_qa_from_html_chinese (Except.ok demoDocCn) := by
    rw [heq]
    exact List.mem_singleton.2 rfl
  exact ⟨Or.inr hm, c4_emitted_pairs_nonempty _ _ (Or.inr hm)⟩

/-! ## Claim C5 -/

/--
**C5.** A document in which no heading node matches the generic class
signature yields the empty sequence (the extractor is total, so no error is
raised).
-/
theorem c5_no_matching_heading_empty (soup : List Node)
    (h : findAll isQuestionNodeGeneric soup = []) :
    extract_qa_from_html (Except.ok soup) = [] := by
  simp [extract_qa_from_html, h]

/-- Witness for C5: a concrete document with no matching heading. -/
theorem c5_no_matching_heading_empty_witness :
    findAll isQuestionNodeGeneric
        [Node.elem "div" [] [Node.text "hello"],
         Node.elem "h2" ["plain"] [Node.text "没有签名？"]] = [] ∧
      extract_qa_from_html (Except.ok
        [Node.elem "div" [] [Node.text "hello"],
         Node.elem "h2" ["plain"] [Node.text "没有签名？"]]) = [] := by
  have h : findAll isQuestionNodeGeneric
      [Node.elem "div" [] [Node.text "hello"],
       Node.elem "h2" ["plain"] [Node.text "没有签名？"]] = [] := by
    simp +decide [findAll, isQuestionNodeGeneric, headingClassGeneric, pyLower,
      hasSubstr]
  exact ⟨h, c5_no_matching_heading_empty _ h⟩

/-! ## Claim C6 -/

/--
**C6.** The epub-level output is the concatenation, in package entry
enumeration order, of each content entry's extracted pairs: three content
entries A, B, C each contributing one pair produce exactly
`[pairFromA, pairFromB, pairFromC]`.
-/
theorem c6_output_order (A B C : EpubItem) (pa pb pc : QAPair)
    (hA : is_content_item A = true) (hB : is_content_item B = true)
    (hC : is_content_item C = true)
    (hpa : itemPairs A = [pa]) (hpb : itemPairs B = [pb])
    (hpc : itemPairs C = [pc]) :
    extract_qa_from_epub [A, B, C] = [pa, pb, pc] := by
  simp [extract_qa_from_epub, hA, hB, hC, hpa, hpb, hpc]

/-- Witness for C6: three concrete content entries, one pair each. -/
theorem c6_output_order_witness :
    is_content_item demoItemA = true ∧ is_content_item demoItemB = true ∧
      is_content_item demoItemC = true ∧
      itemPairs demoItemA
        = [{ question := "为什么天空是蓝色的？", answer := "因为散射" }] ∧
      itemPairs demoItemB = [{ question := "什么是光？", answer := "电磁波" }] ∧
      itemPairs demoItemC = [{ question := "什么是声音？", answer := "振动" }] ∧
      extract_qa_from_epub [demoItemA, demoItemB, demoItemC]
        = [{ question := "为什么天空是蓝色的？", answer := "因为散射" },
           { question := "什么是光？", answer := "电磁波" },
           { question := "什么是声音？", answer := "振动" }] := by
  have hA : is_content_item demoItemA = true := by
    simp +decide [demoItemA, is_content_item, ITEM_DOCUMENT, hasSubstr, pyLower]
  have hB : is_content_item demoItemB = true := by
    simp +decide [demoItemB, is_content_item, ITEM_DOCUMENT, hasSubstr, pyLower]
  have hC : is_content_item demoItemC = true := by
    simp +decide [demoItemC, is_content_item, ITEM_DOCUMENT, hasSubstr, pyLower]
  have hpa : itemPairs demoItemA
      = [{ question := "为什么天空是蓝色的？", answer := "因为散射" }] := by
    simp +decide [demoItemA, demoDocA, itemPairs, extract_qa_from_html, findAll,
      isQuestionNodeGeneric, headingClassGeneric, isBreakNodeGeneric,
      isParaGeneric, collectAnswer, joinNL, Node.getText, getTextList, pyLower,
      hasSubstr]
  have hpb : itemPairs demoItemB
      = [{ question := "什么是光？", answer := "电磁波" }] := by
    simp +decide [demoItemB, demoDocB, itemPairs, extract_qa_from_html, findAll,
      isQuestionNodeGeneric, headingClassGeneric, isBreakNodeGeneric,
      isParaGeneric, collectAnswer, joinNL, Node.getText, getTextList, pyLower,
      hasSubstr]
  have hpc : itemPairs demoItemC
      = [{ question := "什么是声音？", answer := "振动" }] := by
    simp +decide [demoItemC, demoDocC, itemPairs, extract_qa_from_html, findAll,
      isQuestionNodeGeneric, headingClassGeneric, isBreakNodeGeneric,
      isParaGeneric, collectAnswer, joinNL, Node.getText, getTextList, pyLower,
      hasSubstr]
  exact ⟨hA, hB, hC, hpa, hpb, hpc,
    c6_output_order demoItemA demoItemB demoItemC _ _ _ hA hB hC hpa hpb hpc⟩

/-! ## Claim C7 -/

/--
**C7.** A content entry whose bytes fail to decode as UTF-8 is skipped and
contributes zero pairs, while the entries before and after it still
contribute theirs, in order: for entries A, B, C with B undecodable the
output is A's pairs followed by C's pairs.
-/
theorem c7_decode_error_skipped (A B C : EpubItem) (msg : String)
    (hA : is_content_item A = true) (hC : is_content_item C = true)
    (hB : B.content = ItemContent.undecodable msg) :
    extract_qa_from_epub [A, B, C] = itemPairs A ++ itemPairs C := by
  have hBp : itemPairs B = [] := by
    unfold itemPairs
    rw [hB]
  simp [extract_qa_from_epub, hA, hC, hBp]

/-- Witness for C7: a concrete undecodable middle entry. -/
theorem c7_decode_error_skipped_witness :
    is_content_item demoItemA = true ∧ is_content_item demoItemC = true ∧
      demoItemBad.content = ItemContent.undecodable "invalid utf-8" ∧
      extract_qa_from_epub [demoItemA, demoItemBad, demoItemC]
        = itemPairs demoItemA ++ itemPairs demoItemC := by
  have hA : is_content_item demoItemA = true := by
    simp +decide [demoItemA, is_content_item, ITEM_DOCUMENT, hasSubstr, pyLower]
  have hC : is_content_item demoItemC = true := by
    simp +decide [demoItemC, is_content_item, ITEM_DOCUMENT, hasSubstr, pyLower]
  exact ⟨hA, hC, rfl,
    c7_decode_error_skipped demoItemA demoItemBad demoItemC "invalid utf-8"
      hA hC rfl⟩

/-! ## Claim C9 -/

/--
**C9.** `is_content_item` accepts a package entry exactly when its declared
type is `ITEM_DOCUMENT` and its lowercased name contains none of the
exclusion substrings `nav`, `toc`, `content.opf`, `cover`.
-/
theorem c9_is_content_item_iff (item : EpubItem) :
    is_content_item item = true ↔
      item.itemType = ITEM_DOCUMENT ∧
        ∀ x ∈ ["nav", "toc", "content.opf", "cover"],
          hasSubstr (pyLower item.name) x = false := by
  unfold is_content_item
  by_cases ht : item.itemType == ITEM_DOCUMENT
  · simp only [ht, if_true]
    by_cases hx : ["nav", "toc", "content.opf", "cover"].any
        (fun x => hasSubstr (pyLower item.name) x)
    · simp only [hx, if_true]
      constructor
      · intro hfalse; exact absurd hfalse (by simp)
      · intro ⟨_, hnone⟩
        rw [List.any_eq_true] at hx
        obtain ⟨x, hxmem, hxsub⟩ := hx
        rw [hnone x hxmem] at hxsub
        exact absurd hxsub (by simp)
    · simp only [hx, if_false]
      constructor
      · intro _
        refine ⟨by simpa using ht, ?_⟩
        intro x hxmem
        rw [List.any_eq_true] at hx
        push_neg at hx
        simpa using hx x hxmem
      · intro _; rfl
  · simp only [ht, if_false]
    constructor
    · intro hfalse; exact absurd hfalse (by simp)
    · intro ⟨hdoc, _⟩
      exact absurd (by simpa using hdoc) (by simpa using ht)

/-! ## Claim C3 -/

/--
**C3.** For a document body that is exactly: a signature-matching heading H1
with admissible question text, eligible paragraphs P1 and P2 (non-empty
cleaned text), a signature-matching heading H2, and a paragraph P3 — the
generic extractor yields a pair for H1 whose answer is P1's cleaned text, a
newline, and P2's cleaned text (P3 excluded, since the walk stops at H2),
plus a pair for H2 exactly when H2 is admissible and its trailing paragraph
P3 has non-empty cleaned text.
-/
theorem c3_sibling_walk_termination
    (t1 t2 : String) (cls1 cls2 d1 d2 d3 : List String)
    (q1 q2 a1 a2 a3 : String)
    (hH1 : isQuestionNodeGeneric (Node.elem t1 cls1 [Node.text q1]) = true)
    (hH2 : isQuestionNodeGeneric (Node.elem t2 cls2 [Node.text q2]) = true)
    (hQ1ne : clean_text q1 ≠ "")
    (hQ1len : ¬ (clean_text q1).length < 2)
    (hQ1end : pyEndsWith (clean_text q1) "？" = true)
    (hA1 : clean_text a1 ≠ "") (hA2 : clean_text a2 ≠ "") :
    extract_qa_from_html (Except.ok
        [Node.elem t1 cls1 [Node.text q1],
         Node.elem "p" d1 [Node.text a1],
         Node.elem "p" d2 [Node.text a2],
         Node.elem t2 cls2 [Node.text q2],
         Node.elem "p" d3 [Node.text a3]])
      = { question := clean_text q1,
          answer := clean_text a1 ++ "\n" ++ clean_text a2 } ::
        (if clean_text q2 ≠ "" ∧ ¬ (clean_text q2).length < 2 ∧
            pyEndsWith (clean_text q2) "？" = true ∧ clean_text a3 ≠ ""
          then [{ question := clean_text q2, answer := clean_text a3 }]
          else []) := by
  have hfind : findAll isQuestionNodeGeneric
      [Node.elem t1 cls1 [Node.text q1],
       Node.elem "p" d1 [Node.text a1],
       Node.elem "p" d2 [Node.text a2],
       Node.elem t2 cls2 [Node.text q2],
       Node.elem "p" d3 [Node.text a3]]
      = [(Node.elem t1 cls1 [Node.text q1],
          [Node.elem "p" d1 [Node.text a1],
           Node.elem "p" d2 [Node.text a2],
           Node.elem t2 cls2 [Node.text q2],
           Node.elem "p" d3 [Node.text a3]]),
         (Node.elem t2 cls2 [Node.text q2],
          [Node.elem "p" d3 [Node.text a3]])] := by
    simp [findAll, hH1, hH2, isQuestionNodeGeneric_p, isQuestionNodeGeneric_text]
  have hbrk2 : isBreakNodeGeneric (Node.elem t2 cls2 [Node.text q2]) = true := by
    rw [isBreakNodeGeneric_eq]; exact hH2
  have hwalk1 : collectAnswer isBreakNodeGeneric isParaGeneric
      [Node.elem "p" d1 [Node.text a1],
       Node.elem "p" d2 [Node.text a2],
       Node.elem t2 cls2 [Node.text q2],
       Node.elem "p" d3 [Node.text a3]]
      = [clean_text a1, clean_text a2] := by
    simp [collectAnswer, isBreakNodeGeneric_p, isParaGeneric_p, hbrk2,
      getText_elem_text, hA1, hA2]
  have hwalk2 : collectAnswer isBreakNodeGeneric isParaGeneric
      [Node.elem "p" d3 [Node.text a3]]
      = if clean_text a3 = "" then [] else [clean_text a3] := by
    by_cases h3 : clean_text a3 = ""
    · simp [collectAnswer, isBreakNodeGeneric_p, isParaGeneric_p,
        getText_elem_text, h3]
    · simp [collectAnswer, isBreakNodeGeneric_p, isParaGeneric_p,
        getText_elem_text, h3]
  simp only [extract_qa_from_html, hfind, List.flatMap_cons, List.flatMap_nil,
    getText_elem_text, hwalk1, hwalk2]
  rw [if_neg (by simp [hQ1ne, hQ1len, hQ1end]),
    if_pos ⟨hQ1ne, by simpa [joinNL] using str_concat_nl_ne (clean_text a1) (clean_text a2)⟩]
  simp only [joinNL]
  by_cases h2a : clean_text q2 = ""
  · simp [h2a, joinNL]
  · by_cases h2b : (clean_text q2).length < 2
    · simp [h2a, h2b, joinNL]
    · by_cases h2c : pyEndsWith (clean_text q2) "？" = true
      · by_cases h3 : clean_text a3 = ""
        · simp [h2a, h2b, h2c, h3, joinNL]
        · simp [h2a, h2b, h2c, h3, joinNL]
      · simp [h2a, h2b, h2c, joinNL]

/-- Witness for C3: the theorem applied to one concrete document. -/
theorem c3_sibling_walk_termination_witness :
    isQuestionNodeGeneric
        (Node.elem "h2" ["heading"] [Node.text "为什么天空是蓝色的？"]) = true ∧
      isQuestionNodeGeneric
        (Node.elem "h3" ["Title"] [Node.text "什么是光？"]) = true ∧
      clean_text "为什么天空是蓝色的？" ≠ "" ∧
      ¬ (clean_text "为什么天空是蓝色的？").length < 2 ∧
      pyEndsWith (clean_text "为什么天空是蓝色的？") "？" = true ∧
      clean_text "因为散射" ≠ "" ∧ clean_text "蓝光散射更多" ≠ "" ∧
      extract_qa_from_html (Except.ok
          [Node.elem "h2" ["heading"] [Node.text "为什么天空是蓝色的？"],
           Node.elem "p" [] [Node.text "因为散射"],
           Node.elem "p" [] [Node.text "蓝光散射更多"],
           Node.elem "h3" ["Title"] [Node.text "什么是光？"],
           Node.elem "p" [] [Node.text "电磁波"]])
        = { question := clean_text "为什么天空是蓝色的？",
            answer := clean_text "因为散射" ++ "\n" ++ clean_text "蓝光散射更多" } ::
          (if clean_text "什么是光？" ≠ "" ∧ ¬ (clean_text "什么是光？").length < 2 ∧
              pyEndsWith (clean_text "什么是光？") "？" = true ∧
              clean_text "电磁波" ≠ ""
            then [{ question := clean_text "什么是光？",
                    answer := clean_text "电磁波" }]
            else []) := by
  have h1 : isQuestionNodeGeneric
      (Node.elem "h2" ["heading"] [Node.text "为什么天空是蓝色的？"]) = true := by
    decide
  have h2 : isQuestionNodeGeneric
      (Node.elem "h3" ["Title"] [Node.text "什么是光？"]) = true := by
    decide
  refine ⟨h1, h2, by decide, by decide, by decide, by decide, by decide, ?_⟩
  exact c3_sibling_walk_termination "h2" "h3" ["heading"] ["Title"] [] [] []
    "为什么天空是蓝色的？" "什么是光？" "因为散射" "蓝光散射更多" "电磁波"
    h1 h2 (by decide) (by decide) (by decide) (by decide) (by decide)

/-! ## Claim C10 -/

/--
**C10.** In both extractors a sibling node matching the heading class
signature terminates the preceding heading's answer walk even when it is
itself inadmissible (empty or too-short cleaned text, or — in the generic
variant — lacking the `？` suffix): with body H1, P1, H2, P2 where H2
matches the signature but is inadmissible, the output is exactly H1's pair
with answer P1 only, so the paragraph P2 lying between the inadmissible
heading H2 and the end of the document appears in no emitted answer.
-/
theorem c10_inadmissible_heading_terminates
    (tg1 tg2 : String) (cg1 cg2 dg1 dg2 : List String)
    (qg1 qg2 ag1 ag2 : String)
    (hG1 : isQuestionNodeGeneric (Node.elem tg1 cg1 [Node.text qg1]) = true)
    (hG2 : isQuestionNodeGeneric (Node.elem tg2 cg2 [Node.text qg2]) = true)
    (hGQ1ne : clean_text qg1 ≠ "")
    (hGQ1len : ¬ (clean_text qg1).length < 2)
    (hGQ1end : pyEndsWith (clean_text qg1) "？" = true)
    (hGA1 : clean_text ag1 ≠ "")
    (hGbad : clean_text qg2 = "" ∨ (clean_text qg2).length < 2 ∨
      ¬ pyEndsWith (clean_text qg2) "？" = true)
    (tc1 tc2 : String) (cc1 cc2 dc1 dc2 : List String)
    (qc1 qc2 ac1 ac2 : String)
    (hC1 : isQuestionNodeChinese (Node.elem tc1 cc1 [Node.text qc1]) = true)
    (hC2 : isQuestionNodeChinese (Node.elem tc2 cc2 [Node.text qc2]) = true)
    (hC2brk : isBreakNodeChinese (Node.elem tc2 cc2 [Node.text qc2]) = true)
    (hCQ1ne : clean_text qc1 ≠ "")
    (hCQ1len : ¬ (clean_text qc1).length < 2)
    (hCA1 : clean_text ac1 ≠ "")
    (hCp1 : dc1.contains "bodycontent-text" = true)
    (hCbad : clean_text qc2 = "" ∨ (clean_text qc2).length < 2) :
    extract_qa_from_html (Except.ok
        [Node.elem tg1 cg1 [Node.text qg1],
         Node.elem "p" dg1 [Node.text ag1],
         Node.elem tg2 cg2 [Node.text qg2],
         Node.elem "p" dg2 [Node.text ag2]])
      = [{ question := clean_text qg1, answer := clean_text ag1 }] ∧
    extract_qa_from_html_chinese (Except.ok
        [Node.elem tc1 cc1 [Node.text qc1],
         Node.elem "p" dc1 [Node.text ac1],
         Node.elem tc2 cc2 [Node.text qc2],
         Node.elem "p" dc2 [Node.text ac2]])
      = [{ question := clean_text qc1, answer := clean_text ac1 }] := by
  constructor
  · have hbrk2 : isBreakNodeGeneric (Node.elem tg2 cg2 [Node.text qg2]) = true := by
      rw [isBreakNodeGeneric_eq]; exact hG2
    have hfind : findAll isQuestionNodeGeneric
        [Node.elem tg1 cg1 [Node.text qg1],
         Node.elem "p" dg1 [Node.text ag1],
         Node.elem tg2 cg2 [Node.text qg2],
         Node.elem "p" dg2 [Node.text ag2]]
        = [(Node.elem tg1 cg1 [Node.text qg1],
            [Node.elem "p" dg1 [Node.text ag1],
             Node.elem tg2 cg2 [Node.text qg2],
             Node.elem "p" dg2 [Node.text ag2]]),
           (Node.elem tg2 cg2 [Node.text qg2],
            [Node.elem "p" dg2 [Node.text ag2]])] := by
      simp [findAll, hG1, hG2, isQuestionNodeGeneric_p, isQuestionNodeGeneric_text]
    have hwalk : collectAnswer isBreakNodeGeneric isParaGeneric
        [Node.elem "p" dg1 [Node.text ag1],
         Node.elem tg2 cg2 [Node.text qg2],
         Node.elem "p" dg2 [Node.text ag2]]
        = [clean_text ag1] := by
      simp [collectAnswer, isBreakNodeGeneric_p, isParaGeneric_p, hbrk2,
        getText_elem_text, hGA1]
    simp only [extract_qa_from_html, hfind, List.flatMap_cons, List.flatMap_nil,
      getText_elem_text, hwalk]
    rw [if_neg (by simp [hGQ1ne, hGQ1len, hGQ1end]),
      if_pos ⟨hGQ1ne, by simpa [joinNL] using hGA1⟩,
      if_pos (by tauto)]
    simp [joinNL]
  · have hfind : findAll isQuestionNodeChinese
        [Node.elem tc1 cc1 [Node.text qc1],
         Node.elem "p" dc1 [Node.text ac1],
         Node.elem tc2 cc2 [Node.text qc2],
         Node.elem "p" dc2 [Node.text ac2]]
        = [(Node.elem tc1 cc1 [Node.text qc1],
            [Node.elem "p" dc1 [Node.text ac1],
             Node.elem tc2 cc2 [Node.text qc2],
             Node.elem "p" dc2 [Node.text ac2]]),
           (Node.elem tc2 cc2 [Node.text qc2],
            [Node.elem "p" dc2 [Node.text ac2]])] := by
      simp [findAll, hC1, hC2, isQuestionNodeChinese_p, isQuestionNodeChinese_text]
    have hmem : "bodycontent-text" ∈ dc1 := by
      simpa using hCp1
    have hpara : isParaChinese (Node.elem "p" dc1 [Node.text ac1]) = true := by
      simp [isParaChinese, hmem]
    have hwalk : collectAnswer isBreakNodeChinese isParaChinese
        [Node.elem "p" dc1 [Node.text ac1],
         Node.elem tc2 cc2 [Node.text qc2],
         Node.elem "p" dc2 [Node.text ac2]]
        = [clean_text ac1] := by
      simp [collectAnswer, isBreakNodeChinese_p, hpara, hC2brk,
        getText_elem_text, hCA1]
    simp only [extract_qa_from_html_chinese, hfind, List.flatMap_cons,
      List.flatMap_nil, getText_elem_text, hwalk]
    rw [if_neg (by simp [hCQ1ne, hCQ1len]),
      if_pos ⟨hCQ1ne, by simpa [joinNL] using hCA1⟩,
      if_pos (by tauto)]
    simp [joinNL]

/-- Witness for C10: concrete documents, one per extractor, whose second
signature-matching heading is inadmissible. -/
theorem c10_inadmissible_heading_terminates_witness :
    isQuestionNodeGeneric
        (Node.elem "h2" ["heading"] [Node.text "为什么天空是蓝色的？"]) = true ∧
      isQuestionNodeGeneric
        (Node.elem "h4" ["chapter-title"] [Node.text "小结"]) = true ∧
      (clean_text "小结" = "" ∨ (clean_text "小结").length < 2 ∨
        ¬ pyEndsWith (clean_text "小结") "？" = true) ∧
      isQuestionNodeChinese
        (Node.elem "h3" ["bodycontent-second-title"] [Node.text "天空为蓝"]) = true ∧
      isQuestionNodeChinese
        (Node.elem "h2" ["bodycontent-second-title1"] [Node.text "记"]) = true ∧
      (clean_text "记" = "" ∨ (clean_text "记").length < 2) ∧
      extract_qa_from_html (Except.ok
          [Node.elem "h2" ["heading"] [Node.text "为什么天空是蓝色的？"],
           Node.elem "p" [] [Node.text "因为散射"],
           Node.elem "h4" ["chapter-title"] [Node.text "小结"],
           Node.elem "p" [] [Node.text "孤立段落"]])
        = [{ question := clean_text "为什么天空是蓝色的？",
             answer := clean_text "因为散射" }] ∧
      extract_qa_from_html_chinese (Except.ok
          [Node.elem "h3" ["bodycontent-second-title"] [Node.text "天空为蓝"],
           Node.elem "p" ["bodycontent-text"] [Node.text "散射"],
           Node.elem "h2" ["bodycontent-second-title1"] [Node.text "记"],
           Node.elem "p" ["bodycontent-text"] [Node.text "孤立"]])
        = [{ question := clean_text "天空为蓝", answer := clean_text "散射" }] := by
  have hmain := c10_inadmissible_heading_terminates
    "h2" "h4" ["heading"] ["chapter-title"] [] []
    "为什么天空是蓝色的？" "小结" "因为散射" "孤立段落"
    (by decide) (by decide) (by decide) (by decide) (by decide) (by decide)
    (by decide)
    "h3" "h2" ["bodycontent-second-title"] ["bodycontent-second-title1"]
    ["bodycontent-text"] ["bodycontent-text"]
    "天空为蓝" "记" "散射" "孤立"
    (by decide) (by decide) (by decide) (by decide) (by decide) (by decide)
    (by decide) (by decide)
  exact ⟨by decide, by decide, by decide, by decide, by decide, by decide,
    hmain.1, hmain.2⟩
